import Mathlib

/-!
# RAM-Limiter: shallow embedding of the memory-enforcement code

This file embeds, in Lean 4, the enforcement logic of
`ram_limiter_gui.pyw` from the RAM-Limiter repository:

* `GameModeThread` (source lines 30–53): the Game Mode loop that scans all
  processes every tick, kills any process whose lowercased name is not in
  the whitelist and whose resident memory exceeds `ram_limit_mb` MB, and
  sleeps 2 seconds between ticks.
* `RAMLimiterGUI.toggle_game_mode` (lines 312–334): parsing of the RAM
  limit and whitelist text fields, the built-in system-process list that is
  appended to the whitelist, and thread creation.
* `RAMLimiterGUI.start_limiter_thread` (lines 362–368) and
  `RAMLimiterGUI.stop_limiting` (lines 370–376): the per-target thread
  registry and its stop behaviour.

Machine data: `rss` (resident set size) is a byte count, modelled as `Nat`.
Python computes `memory_mb = rss / (1024 * 1024)` in floating point and
compares `memory_mb > ram_limit_mb`; for every realistic `rss` (below 2^53
the float quotient by the power of two 2^20 is exact) this coincides with
the exact comparison `rss > ram_limit_mb * 1048576`, which is what we use.
-/

/-- Python `str.lower()` on one character (ASCII range; process names and
whitelist entries in this program are ASCII). -/
def lowerChar (c : Char) : Char :=
  if 'A' ≤ c ∧ c ≤ 'Z' then Char.ofNat (c.toNat + 32) else c

/-- Python `str.lower()`. -/
def strLower (s : String) : String :=
  ⟨s.data.map lowerChar⟩

/-- Python's whitespace test used by `str.strip()` (space, tab, newline,
carriage return, vertical tab, form feed). -/
def isPySpace (c : Char) : Bool :=
  c = ' ' ∨ c = '\t' ∨ c = '\n' ∨ c = '\r' ∨ c = Char.ofNat 11 ∨ c = Char.ofNat 12

/-- Python `str.strip()`: drop leading and trailing whitespace. -/
def strStrip (s : String) : String :=
  ⟨((s.data.dropWhile isPySpace).reverse.dropWhile isPySpace).reverse⟩

/-- Helper for `str.split(',')` at the character level. -/
def splitCommaChars : List Char → List (List Char)
  | [] => [[]]
  | c :: rest =>
      let r := splitCommaChars rest
      if c = ',' then [] :: r
      else
        match r with
        | h :: t => (c :: h) :: t
        | [] => [[c]]

/-- Python `str.split(',')` (note: on the empty string it yields `[""]`,
a single empty field, exactly as Python does). -/
def strSplitComma (s : String) : List String :=
  (splitCommaChars s.data).map fun cs => ⟨cs⟩

/-- A process snapshot as read by the loop: `proc.name()` and
`proc.memory_info().rss` (bytes). -/
structure ProcSnapshot where
  name : String
  rss : Nat
deriving Repr, DecidableEq

/-- One entry of `psutil.process_iter`. The body of the scan wraps each
process in `try ... except (psutil.NoSuchProcess, psutil.AccessDenied):
continue` (lines 42–49), so an entry either yields a readable (and, if
targeted, killable) snapshot, or raises one of the two caught exceptions
at some point of the per-process block. -/
inductive ProcEntry where
  | ok (p : ProcSnapshot)
  | errNoSuchProcess
  | errAccessDenied
deriving Repr, DecidableEq

/-- Observable per-process outcome of a tick. The source only ever emits a
kill notification (`update_signal.emit(f"Killed process ...")`, line 47);
`softTrim` and `skipped` exist in the outcome vocabulary so that their
absence from the loop's output is a provable statement, not a typing
artifact. -/
inductive GMAction where
  | killed (name : String) (rss : Nat)
  | softTrim (name : String)
  | skipped (name : String)
deriving Repr, DecidableEq

/-- State of `GameModeThread`: exactly the fields set in `__init__`
(lines 33–37). -/
structure GameModeThread where
  ram_limit_mb : Int
  whitelist : List String
  running : Bool
deriving Repr, DecidableEq

/-- The field names assigned in `GameModeThread.__init__` (lines 35–37):
`self.ram_limit_mb`, `self.whitelist`, `self.running`. No other per-thread
configuration exists. -/
def gameModeThreadFields : List String :=
  ["ram_limit_mb", "whitelist", "running"]

/-- `GameModeThread(ram_limit_mb, whitelist)`: `running` starts `True`. -/
def GameModeThread.init (ram_limit_mb : Int) (whitelist : List String) :
    GameModeThread :=
  { ram_limit_mb := ram_limit_mb, whitelist := whitelist, running := true }

/-- `GameModeThread.stop` (lines 52–53): `self.running = False`. -/
def GameModeThread.stop (t : GameModeThread) : GameModeThread :=
  { t with running := false }

/-- The per-process body of the scan (lines 42–49):
if `proc.name().lower() not in self.whitelist` and
`proc.memory_info().rss / (1024*1024) > self.ram_limit_mb` then
`proc.kill()` and emit the kill message; a caught `NoSuchProcess` or
`AccessDenied` means `continue` (no action, no event). -/
def GameModeThread.handleProc (t : GameModeThread) : ProcEntry → Option GMAction
  | .ok p =>
      if strLower p.name ∈ t.whitelist then none
      else if (p.rss : Int) > t.ram_limit_mb * 1048576 then
        some (.killed p.name p.rss)
      else none
  | .errNoSuchProcess => none
  | .errAccessDenied => none

/-- One full pass of `for proc in psutil.process_iter(...)` (lines 41–49):
the events emitted during one tick, in scan order. -/
def GameModeThread.tick (t : GameModeThread) (procs : List ProcEntry) :
    List GMAction :=
  procs.filterMap t.handleProc

/-- Input to one iteration of the `while self.running` loop: whether
`stop()` has been called by the GUI thread before this iteration's check of
`self.running`, and the process list the scan will see. -/
structure TickInput where
  stopRequested : Bool
  procs : List ProcEntry
deriving Repr, DecidableEq

/-- Observable output of one executed iteration: the thread state during
the tick, the emitted events, and the `self.sleep(2)` duration (line 50). -/
structure TickOutput where
  state : GameModeThread
  events : List GMAction
  sleepSeconds : Nat
deriving Repr, DecidableEq

/-- The thread state as seen at an iteration's `while self.running` check:
if `stop()` was called since the previous check, `running` has been set to
`False`. -/
def GameModeThread.applyStop (t : GameModeThread) (i : TickInput) :
    GameModeThread :=
  if i.stopRequested then t.stop else t

/-- `GameModeThread.run` (lines 39–50) observed over a finite schedule of
iterations: at each `while self.running` check, a pending `stop()` is first
applied; if `running` is still true the tick scans the processes, emits its
events and sleeps 2 seconds, otherwise the loop exits and produces nothing
further. -/
def GameModeThread.runLoop : GameModeThread → List TickInput → List TickOutput
  | _, [] => []
  | t, i :: is =>
      if (t.applyStop i).running then
        { state := t.applyStop i, events := (t.applyStop i).tick i.procs,
          sleepSeconds := 2 } :: (t.applyStop i).runLoop is
      else []

/-- Model of Python `int(text)` on a decimal string: surrounding whitespace
stripped, optional single sign, then one or more ASCII digits; anything
else raises `ValueError`, modelled as `none`. (Python's underscore digit
grouping and non-ASCII digits are out of scope.) -/
def digitsToNat (cs : List Char) : Option Nat :=
  if cs.isEmpty then none
  else
    cs.foldl
      (fun acc c =>
        match acc with
        | none => none
        | some n => if c.isDigit then some (n * 10 + (c.toNat - 48)) else none)
      (some 0)

/-- See `digitsToNat`. -/
def pythonInt (s : String) : Option Int :=
  match (strStrip s).data with
  | '+' :: rest => (digitsToNat rest).map Int.ofNat
  | '-' :: rest => (digitsToNat rest).map fun n => -(n : Int)
  | rest => (digitsToNat rest).map Int.ofNat

/-- Line 316: `[proc.strip().lower() for proc in text.split(',')]`. -/
def parseWhitelist (s : String) : List String :=
  (strSplitComma s).map fun p => strLower (strStrip p)

/-- Lines 318–319: the built-in system-process list appended to the
whitelist. -/
def system_processes : List String :=
  ["explorer.exe", "system", "systemd", "svchost.exe",
   "csrss.exe", "winlogon.exe", "services.exe"]

/-- `toggle_game_mode` when the checkbox is checked (lines 313–328):
parse the RAM-limit field with `int(...)`; on `ValueError` warn and do not
create a thread (`none`); otherwise build the whitelist, extend it with
`system_processes`, and start a `GameModeThread` with the captured values. -/
def toggleGameModeOn (ramText wlText : String) : Option GameModeThread :=
  match pythonInt ramText with
  | none => none
  | some lim =>
      some (GameModeThread.init lim (parseWhitelist wlText ++ system_processes))

/-- State of one `RAMLimiterThread` (lines 18–28): the constructor stores
`process_name`, `interval`, `max_memory_percent`; `isRunning` reflects
`QThread.isRunning()` (true from `start()` until the thread ends). The
thread body calls `limit_ram_for_process` from the separate `ram_limiter`
module, which is outside the scope of the claims below. -/
structure LimiterThread where
  process_name : String
  interval : Int
  max_memory_percent : Int
  isRunning : Bool
deriving Repr, DecidableEq

/-- Lines appended to the GUI output area, modelled structurally:
`started n p` is `"Started limiting RAM for {n} (Max: {p}%)"` (line 368)
and `stoppedAll` is `"Stopped all RAM limiting"` (line 376). -/
inductive GuiLine where
  | started (name : String) (maxPct : Int)
  | stoppedAll
deriving Repr, DecidableEq

/-- The mutable GUI state the per-target claims are about:
`self.limiter_threads` (a dict from process name to thread, modelled as an
association list in insertion order) and the output area. -/
structure LimiterRegistry where
  limiter_threads : List (String × LimiterThread)
  output_lines : List GuiLine
deriving Repr, DecidableEq

/-- Dict lookup `self.limiter_threads[process_name]` /
`process_name in self.limiter_threads`. -/
def lookupThread (ts : List (String × LimiterThread)) (name : String) :
    Option LimiterThread :=
  (ts.find? fun x => x.1 == name).map Prod.snd

/-- Dict assignment `self.limiter_threads[process_name] = thread`:
replace an existing binding in place, otherwise append. -/
def setThread (ts : List (String × LimiterThread)) (name : String)
    (th : LimiterThread) : List (String × LimiterThread) :=
  if (ts.find? fun x => x.1 == name).isSome then
    ts.map fun x => if x.1 == name then (name, th) else x
  else ts ++ [(name, th)]

/-- `start_limiter_thread` (lines 362–368): if the name has no registered
thread, or its registered thread is not running, create and start a new
`RAMLimiterThread`, register it, and append the "Started limiting ..."
line; otherwise do nothing at all (no thread, no output, no error). -/
def start_limiter_thread (st : LimiterRegistry) (name : String)
    (interval maxPct : Int) : LimiterRegistry :=
  match lookupThread st.limiter_threads name with
  | some th =>
      if th.isRunning then st
      else
        { limiter_threads :=
            setThread st.limiter_threads name ⟨name, interval, maxPct, true⟩,
          output_lines := st.output_lines ++ [GuiLine.started name maxPct] }
  | none =>
      { limiter_threads :=
          setThread st.limiter_threads name ⟨name, interval, maxPct, true⟩,
        output_lines := st.output_lines ++ [GuiLine.started name maxPct] }

/-- Qt thread-control calls issued by `stop_limiting`:
`thread.terminate()` is a forced, non-cooperative kill of the thread
(the loop body gets no chance to finish its in-progress work), and
`thread.wait()` blocks until the thread object is finished. -/
inductive QtStopCall where
  | terminateThread (name : String)
  | waitThread (name : String)
deriving Repr, DecidableEq

/-- `stop_limiting` (lines 370–376): for every registered thread that is
running, call `terminate()` then `wait()`; then clear the registry and
append the "Stopped all RAM limiting" line. Returns the new state and the
ordered list of Qt calls made. -/
def stop_limiting (st : LimiterRegistry) : LimiterRegistry × List QtStopCall :=
  ({ limiter_threads := [],
     output_lines := st.output_lines ++ [GuiLine.stoppedAll] },
   st.limiter_threads.flatMap fun x =>
     if x.2.isRunning then
       [QtStopCall.terminateThread x.1, QtStopCall.waitThread x.1]
     else [])

example :
    GameModeThread.tick (GameModeThread.init 500 ["game.exe"])
      [ProcEntry.ok ⟨"game.exe", 900 * 1048576⟩] = [] := by decide

example :
    GameModeThread.tick (GameModeThread.init 500 ["game.exe"])
      [ProcEntry.ok ⟨"Chrome.exe", 900 * 1048576⟩] =
      [GMAction.killed "Chrome.exe" (900 * 1048576)] := by decide

example : pythonInt " 500 " = some 500 := by decide

example : parseWhitelist "Game.exe, steam.EXE" = ["game.exe", "steam.exe"] := by
  decide

/-! ## Helper lemmas -/

theorem handleProc_killed_iff (t : GameModeThread) (e : ProcEntry)
    (n : String) (r : Nat) :
    t.handleProc e = some (GMAction.killed n r) ↔
      ∃ p : ProcSnapshot, e = ProcEntry.ok p ∧ p.name = n ∧ p.rss = r ∧
        strLower n ∉ t.whitelist ∧ (r : Int) > t.ram_limit_mb * 1048576 := by
  cases e with
  | ok p =>
      simp only [GameModeThread.handleProc]
      split
      · simp only [reduceCtorEq, false_iff]
        rintro ⟨q, hq, hn, hr, hwl, hover⟩
        cases hq
        exact hwl (hn ▸ ‹strLower p.name ∈ t.whitelist›)
      · split
        · constructor
          · rintro h
            injection h with h
            cases h
            exact ⟨p, rfl, rfl, rfl, ‹strLower p.name ∉ t.whitelist›,
              ‹(p.rss : Int) > t.ram_limit_mb * 1048576›⟩
          · rintro ⟨q, hq, hn, hr, hwl, hover⟩
            cases hq
            rw [hn, hr]
        · simp only [reduceCtorEq, false_iff]
          rintro ⟨q, hq, hn, hr, hwl, hover⟩
          cases hq
          exact ‹¬(p.rss : Int) > t.ram_limit_mb * 1048576› (by rw [hr]; exact hover)
  | errNoSuchProcess => simp [GameModeThread.handleProc]
  | errAccessDenied => simp [GameModeThread.handleProc]

theorem killed_mem_tick_iff (t : GameModeThread) (procs : List ProcEntry)
    (n : String) (r : Nat) :
    GMAction.killed n r ∈ t.tick procs ↔
      ∃ p : ProcSnapshot, ProcEntry.ok p ∈ procs ∧ p.name = n ∧ p.rss = r ∧
        strLower n ∉ t.whitelist ∧ (r : Int) > t.ram_limit_mb * 1048576 := by
  simp only [GameModeThread.tick, List.mem_filterMap]
  constructor
  · rintro ⟨e, he, hsome⟩
    obtain ⟨p, hp, h⟩ := (handleProc_killed_iff t e n r).mp hsome
    exact ⟨p, hp ▸ he, h⟩
  · rintro ⟨p, hp, h⟩
    exact ⟨ProcEntry.ok p, hp,
      (handleProc_killed_iff t (ProcEntry.ok p) n r).mpr ⟨p, rfl, h⟩⟩

theorem mem_tick_elim (t : GameModeThread) (procs : List ProcEntry)
    (e : GMAction) (he : e ∈ t.tick procs) :
    ∃ n r, e = GMAction.killed n r ∧ strLower n ∉ t.whitelist ∧
      (r : Int) > t.ram_limit_mb * 1048576 := by
  simp only [GameModeThread.tick, List.mem_filterMap] at he
  obtain ⟨x, _, hx⟩ := he
  cases x with
  | ok p =>
      simp only [GameModeThread.handleProc] at hx
      split at hx
      · exact absurd hx (by simp)
      · split at hx
        · injection hx with hx
          exact ⟨p.name, p.rss, hx.symm, ‹strLower p.name ∉ t.whitelist›,
            ‹(p.rss : Int) > t.ram_limit_mb * 1048576›⟩
        · exact absurd hx (by simp)
  | errNoSuchProcess => exact absurd hx (by simp [GameModeThread.handleProc])
  | errAccessDenied => exact absurd hx (by simp [GameModeThread.handleProc])

theorem runLoop_mem_elim (t : GameModeThread) (inputs : List TickInput)
    (o : TickOutput) (ho : o ∈ t.runLoop inputs) :
    o.state.ram_limit_mb = t.ram_limit_mb ∧ o.state.whitelist = t.whitelist ∧
      o.sleepSeconds = 2 ∧ ∃ i ∈ inputs, o.events = o.state.tick i.procs := by
  induction inputs generalizing t with
  | nil => simp [GameModeThread.runLoop] at ho
  | cons i is ih =>
      simp only [GameModeThread.runLoop] at ho
      have hfields : (t.applyStop i).ram_limit_mb = t.ram_limit_mb ∧
          (t.applyStop i).whitelist = t.whitelist := by
        unfold GameModeThread.applyStop
        split <;> exact ⟨rfl, rfl⟩
      split at ho
      · rcases List.mem_cons.mp ho with h | h
        · subst h
          exact ⟨hfields.1, hfields.2, rfl, i, List.mem_cons_self _ _, rfl⟩
        · obtain ⟨h1, h2, h3, j, hj, hev⟩ := ih (t.applyStop i) h
          exact ⟨h1.trans hfields.1, h2.trans hfields.2, h3,
            j, List.mem_cons_of_mem _ hj, hev⟩
      · simp at ho

/-! ## Claims -/

/-- C1: for every process whose lowercased name is in the effective
protected set — the caller-supplied whitelist (as parsed from the whitelist
field) unioned with the built-in `system_processes` list — the Game Mode
loop never emits a kill for it, on any tick of any run, regardless of its
resident memory `r`. (The loop has no aggressiveness setting at all, see
C9, so no such setting can weaken this.) -/
theorem C1_protected_never_killed
    (ramText wlText : String) (t : GameModeThread)
    (hT : toggleGameModeOn ramText wlText = some t)
    (n : String)
    (hn : strLower n ∈ parseWhitelist wlText ++ system_processes)
    (inputs : List TickInput) (o : TickOutput) (ho : o ∈ t.runLoop inputs)
    (r : Nat) :
    GMAction.killed n r ∉ o.events := by
  have hwl : t.whitelist = parseWhitelist wlText ++ system_processes := by
    unfold toggleGameModeOn at hT
    cases hp : pythonInt ramText with
    | none => rw [hp] at hT; exact absurd hT (by simp)
    | some lim =>
        rw [hp] at hT
        injection hT with hT
        subst hT
        rfl
  obtain ⟨-, hW, -, i, -, hev⟩ := runLoop_mem_elim t inputs o ho
  rw [hev]
  intro hmem
  obtain ⟨p, -, -, -, hnotin, -⟩ := (killed_mem_tick_iff _ _ _ _).mp hmem
  exact hnotin (by rw [hW, hwl]; exact hn)

/-- Witness for C1 at the spec's Scenario B: whitelist "game.exe", limit
500 MB, "game.exe" at 900 MB on the first tick. -/
theorem C1_protected_never_killed_witness :
    GMAction.killed "game.exe" (900 * 1048576) ∉
      (TickOutput.mk
        (GameModeThread.init 500 (parseWhitelist "game.exe" ++ system_processes))
        ((GameModeThread.init 500 (parseWhitelist "game.exe" ++ system_processes)).tick
          [ProcEntry.ok ⟨"game.exe", 900 * 1048576⟩]) 2).events :=
  C1_protected_never_killed "500" "game.exe"
    (GameModeThread.init 500 (parseWhitelist "game.exe" ++ system_processes))
    (by decide) "game.exe" (by decide)
    [⟨false, [ProcEntry.ok ⟨"game.exe", 900 * 1048576⟩]⟩]
    (TickOutput.mk
      (GameModeThread.init 500 (parseWhitelist "game.exe" ++ system_processes))
      ((GameModeThread.init 500 (parseWhitelist "game.exe" ++ system_processes)).tick
        [ProcEntry.ok ⟨"game.exe", 900 * 1048576⟩]) 2)
    (by decide) (900 * 1048576)

/-- C2: on a tick, a scanned process is terminated if and only if its
lowercased name is not in the effective whitelist and its resident memory
strictly exceeds `ram_limit_mb` megabytes (`rss > ram_limit_mb * 2^20`
bytes); a process exactly at the limit yields no action at all; and no
soft-reclaim is ever emitted. -/
theorem C2_kill_iff_unprotected_over_limit
    (t : GameModeThread) (p : ProcSnapshot) :
    (GMAction.killed p.name p.rss ∈ t.tick [ProcEntry.ok p] ↔
      strLower p.name ∉ t.whitelist ∧
        (p.rss : Int) > t.ram_limit_mb * 1048576)
    ∧ ((p.rss : Int) = t.ram_limit_mb * 1048576 →
        t.tick [ProcEntry.ok p] = [])
    ∧ (∀ n, GMAction.softTrim n ∉ t.tick [ProcEntry.ok p]) := by
  refine ⟨?_, ?_, ?_⟩
  · rw [killed_mem_tick_iff]
    constructor
    · rintro ⟨q, -, -, -, hwl, hover⟩
      exact ⟨hwl, hover⟩
    · rintro ⟨hwl, hover⟩
      exact ⟨p, List.mem_singleton_self _, rfl, rfl, hwl, hover⟩
  · intro heq
    have hnone : t.handleProc (ProcEntry.ok p) = none := by
      simp only [GameModeThread.handleProc]
      split
      · rfl
      · split
        · have hlt := ‹(p.rss : Int) > t.ram_limit_mb * 1048576›
          rw [heq] at hlt
          exact absurd hlt (lt_irrefl _)
        · rfl
    simp [GameModeThread.tick, List.filterMap_cons, hnone]
  · intro n hmem
    obtain ⟨m, r, he, -, -⟩ := mem_tick_elim _ _ _ hmem
    exact GMAction.noConfusion he

/-- Witness for C2: a non-whitelisted 600 MB process against a 500 MB
limit is killed; a process exactly at 500 MB yields no action. -/
theorem C2_kill_iff_unprotected_over_limit_witness :
    GMAction.killed "big.exe" (600 * 1048576) ∈
      (GameModeThread.init 500 ["game.exe"]).tick
        [ProcEntry.ok ⟨"big.exe", 600 * 1048576⟩] ∧
    (GameModeThread.init 500 ["game.exe"]).tick
        [ProcEntry.ok ⟨"edge.exe", 500 * 1048576⟩] = [] :=
  ⟨((C2_kill_iff_unprotected_over_limit (GameModeThread.init 500 ["game.exe"])
      ⟨"big.exe", 600 * 1048576⟩).1).mpr ⟨by decide, by decide⟩,
   (C2_kill_iff_unprotected_over_limit (GameModeThread.init 500 ["game.exe"])
      ⟨"edge.exe", 500 * 1048576⟩).2.1 (by decide)⟩

/-- C3 counterexample (spec Scenario B): with limit 500 MB and whitelist
"game.exe", a tick that scans "game.exe" using 900 MB emits no event at
all — the event list is empty, so no `Skipped` outcome is produced,
contrary to the claim that every per-process decision emits a
`RemediationOutcome` event. The loop's only emission site is the kill
branch (source line 47). -/
theorem C3_counterexample :
    toggleGameModeOn "500" "game.exe" =
      some (GameModeThread.init 500 (parseWhitelist "game.exe" ++ system_processes)) ∧
    (GameModeThread.init 500 (parseWhitelist "game.exe" ++ system_processes)).tick
      [ProcEntry.ok ⟨"game.exe", 900 * 1048576⟩] = [] := by decide

/-- C3 amended: only terminations emit an event. Every event of a tick is
a `killed` event for a process whose lowercased name is not whitelisted
and whose memory strictly exceeds the limit; a whitelisted process
produces no event whatsoever (there are no `Skipped` outcomes). -/
theorem C3_amended_only_kills_emit
    (t : GameModeThread) :
    (∀ procs e, e ∈ t.tick procs →
      ∃ n r, e = GMAction.killed n r ∧ strLower n ∉ t.whitelist ∧
        (r : Int) > t.ram_limit_mb * 1048576)
    ∧ ∀ p : ProcSnapshot, strLower p.name ∈ t.whitelist →
        t.tick [ProcEntry.ok p] = [] := by
  constructor
  · intro procs e he
    exact mem_tick_elim t procs e he
  · intro p hp
    have hnone : t.handleProc (ProcEntry.ok p) = none := by
      simp only [GameModeThread.handleProc]
      rw [if_pos hp]
    simp [GameModeThread.tick, List.filterMap_cons, hnone]

/-- Witness for C3 amended: the protected 900 MB "game.exe" produces the
empty event list. -/
theorem C3_amended_only_kills_emit_witness :
    (GameModeThread.init 500 ["game.exe"]).tick
      [ProcEntry.ok ⟨"game.exe", 900 * 1048576⟩] = [] :=
  (C3_amended_only_kills_emit (GameModeThread.init 500 ["game.exe"])).2
    ⟨"game.exe", 900 * 1048576⟩ (by decide)

/-- C4: a process whose psutil calls raise `NoSuchProcess` (vanished) or
`AccessDenied` (insufficient privilege) is skipped and the scan of the
remaining processes is unaffected: the tick over the list with the faulty
entry equals the tick over the list without it, so a per-process error
never aborts the scan. -/
theorem C4_per_process_errors_skip_and_continue
    (t : GameModeThread) (pre post : List ProcEntry) (b : ProcEntry)
    (hb : b = ProcEntry.errNoSuchProcess ∨ b = ProcEntry.errAccessDenied) :
    t.tick (pre ++ b :: post) = t.tick (pre ++ post) := by
  have hnone : t.handleProc b = none := by
    rcases hb with h | h <;> subst h <;> rfl
  simp [GameModeThread.tick, List.filterMap_append, List.filterMap_cons, hnone]

/-- Witness for C4: an `AccessDenied` entry between two over-limit
processes changes nothing about how the others are handled. -/
theorem C4_per_process_errors_skip_and_continue_witness :
    (GameModeThread.init 500 ["game.exe"]).tick
      [ProcEntry.ok ⟨"a.exe", 600 * 1048576⟩, ProcEntry.errAccessDenied,
       ProcEntry.ok ⟨"b.exe", 700 * 1048576⟩] =
    (GameModeThread.init 500 ["game.exe"]).tick
      [ProcEntry.ok ⟨"a.exe", 600 * 1048576⟩,
       ProcEntry.ok ⟨"b.exe", 700 * 1048576⟩] :=
  C4_per_process_errors_skip_and_continue (GameModeThread.init 500 ["game.exe"])
    [ProcEntry.ok ⟨"a.exe", 600 * 1048576⟩]
    [ProcEntry.ok ⟨"b.exe", 700 * 1048576⟩]
    ProcEntry.errAccessDenied (Or.inr rfl)

/-- C5 counterexample: entering "5" as the RAM limit is accepted —
`toggle_game_mode` parses it and starts a Game Mode thread whose limit is
5 MB, far below the claimed lower bound of 100 MB; no range check or
clamping to [100, 4096] exists anywhere in the enable path. (The other
half of the claim — a non-parsable limit is rejected before any thread is
created — does hold; see the amended theorem.) -/
theorem C5_counterexample :
    toggleGameModeOn "5" "" =
      some (GameModeThread.init 5 (parseWhitelist "" ++ system_processes)) ∧
    (GameModeThread.init 5 (parseWhitelist "" ++ system_processes)).ram_limit_mb = 5 ∧
    ¬(100 ≤ (GameModeThread.init 5 (parseWhitelist "" ++ system_processes)).ram_limit_mb) := by
  decide

/-- C5 amended: enabling Game Mode with a RAM-limit field that does not
parse as an integer is rejected before the loop starts (no thread is
created); any field that does parse is accepted verbatim as the limit —
there is no [100, 4096] range check and no clamping at all. -/
theorem C5_amended_parse_is_only_validation
    (ramText wlText : String) :
    (pythonInt ramText = none → toggleGameModeOn ramText wlText = none) ∧
    ∀ lim, pythonInt ramText = some lim →
      toggleGameModeOn ramText wlText =
        some (GameModeThread.init lim (parseWhitelist wlText ++ system_processes)) := by
  constructor
  · intro h
    unfold toggleGameModeOn
    rw [h]
  · intro lim h
    unfold toggleGameModeOn
    rw [h]

/-- Witness for C5 amended: the non-numeric input "abc" creates no
thread. -/
theorem C5_amended_parse_is_only_validation_witness :
    toggleGameModeOn "abc" "game.exe" = none :=
  (C5_amended_parse_is_only_validation "abc" "game.exe").1 (by decide)

/-- C6 counterexample: starting a limiter for "chrome" twice while the
first thread is running leaves the GUI state literally unchanged — the
registry still holds one thread and the output area still holds only the
single "Started limiting ..." line from the first call. The second call is
a silent no-op: no `DuplicateTarget` (or any) error is surfaced, contrary
to the claim of an observable failure. -/
theorem C6_counterexample :
    start_limiter_thread
        (start_limiter_thread ⟨[], []⟩ "chrome" 5 75) "chrome" 5 75 =
      start_limiter_thread ⟨[], []⟩ "chrome" 5 75 ∧
    (start_limiter_thread
        (start_limiter_thread ⟨[], []⟩ "chrome" 5 75) "chrome" 5 75).output_lines =
      [GuiLine.started "chrome" 75] ∧
    (start_limiter_thread
        (start_limiter_thread ⟨[], []⟩ "chrome" 5 75) "chrome" 5 75).limiter_threads.length = 1 := by
  decide

/-- C6 amended: if a loop for the same target name is already running, a
second start call for that name is a silent no-op — it spawns no second
thread, changes nothing in the registry and produces no output or error. -/
theorem C6_amended_duplicate_start_silent_noop
    (st : LimiterRegistry) (name : String) (interval maxPct : Int)
    (th : LimiterThread)
    (hth : lookupThread st.limiter_threads name = some th)
    (hrun : th.isRunning = true) :
    start_limiter_thread st name interval maxPct = st := by
  simp [start_limiter_thread, hth, hrun]

/-- Witness for C6 amended: the concrete double start of "chrome". -/
theorem C6_amended_duplicate_start_silent_noop_witness :
    start_limiter_thread
        (start_limiter_thread ⟨[], []⟩ "chrome" 5 75) "chrome" 5 75 =
      start_limiter_thread ⟨[], []⟩ "chrome" 5 75 :=
  C6_amended_duplicate_start_silent_noop
    (start_limiter_thread ⟨[], []⟩ "chrome" 5 75) "chrome" 5 75
    ⟨"chrome", 5, 75, true⟩ (by decide) rfl

/-- C7 counterexample: `stop_limiting` issues `QThread.terminate()` —
a forced, non-cooperative interruption — to the running per-target
"chrome" loop, contrary to the claim that every enforcement loop
(per-target included) is stopped cooperatively at a tick boundary. -/
theorem C7_counterexample :
    QtStopCall.terminateThread "chrome" ∈
      (stop_limiting (start_limiter_thread ⟨[], []⟩ "chrome" 5 75)).2 := by
  decide

/-- C7 amended: the two stop paths differ. The Game Mode loop is stopped
cooperatively: once a stop request is observed at the `while self.running`
check of iteration `k`, the loop runs no iteration from `k` on — no
further remediation happens. The per-target loops, in contrast, are
stopped by `stop_limiting` issuing a forced `QThread.terminate()` to every
running thread, not by a cooperative flag. -/
theorem C7_amended_stop_semantics :
    (∀ (t : GameModeThread) (inputs : List TickInput) (k : Nat)
        (hk : k < inputs.length),
        (inputs.get ⟨k, hk⟩).stopRequested = true →
        (t.runLoop inputs).length ≤ k)
    ∧ ∀ (st : LimiterRegistry) (name : String) (th : LimiterThread),
        (name, th) ∈ st.limiter_threads → th.isRunning = true →
        QtStopCall.terminateThread name ∈ (stop_limiting st).2 := by
  constructor
  · intro t inputs
    induction inputs generalizing t with
    | nil =>
        intro k hk _
        exact absurd hk (Nat.not_lt_zero k)
    | cons i is ih =>
        intro k hk hstop
        cases k with
        | zero =>
            have hrun : (t.applyStop i).running = false := by
              have hs : i.stopRequested = true := hstop
              simp [GameModeThread.applyStop, hs, GameModeThread.stop]
            simp [GameModeThread.runLoop, hrun]
        | succ k' =>
            by_cases hr : (t.applyStop i).running
            · simp only [GameModeThread.runLoop, if_pos hr, List.length_cons]
              exact Nat.succ_le_succ
                (ih (t.applyStop i) k' (Nat.lt_of_succ_lt_succ hk) hstop)
            · simp [GameModeThread.runLoop, hr]
  · intro st name th hmem hrun
    simp only [stop_limiting, List.mem_flatMap]
    exact ⟨(name, th), hmem, by simp [hrun]⟩

/-- Witness for C7 amended: a stop request at the second iteration limits
the Game Mode loop to at most one executed tick, and the running "chrome"
limiter receives a forced `terminate()`. -/
theorem C7_amended_stop_semantics_witness :
    ((GameModeThread.init 500 ["game.exe"]).runLoop
        [⟨false, []⟩, ⟨true, [ProcEntry.ok ⟨"big.exe", 900 * 1048576⟩]⟩]).length ≤ 1 ∧
    QtStopCall.terminateThread "chrome" ∈
      (stop_limiting (start_limiter_thread ⟨[], []⟩ "chrome" 5 75)).2 :=
  ⟨C7_amended_stop_semantics.1 (GameModeThread.init 500 ["game.exe"])
      [⟨false, []⟩, ⟨true, [ProcEntry.ok ⟨"big.exe", 900 * 1048576⟩]⟩]
      1 (by decide) rfl,
   C7_amended_stop_semantics.2 (start_limiter_thread ⟨[], []⟩ "chrome" 5 75)
      "chrome" ⟨"chrome", 5, 75, true⟩ (by decide) rfl⟩

/-- C8: whitelist matching is case-insensitive and exact on the full
lowercased process name. For a process over the limit, the tick takes no
action on it if and only if its lowercased name is literally a member of
the whitelist (`List.Mem`, i.e. full-string equality with some entry — no
substring matching in either direction); and two processes with equal
memory whose names agree up to case are treated identically. -/
theorem C8_matching_exact_and_case_insensitive
    (t : GameModeThread) (p : ProcSnapshot)
    (hover : (p.rss : Int) > t.ram_limit_mb * 1048576) :
    (t.handleProc (ProcEntry.ok p) = none ↔ strLower p.name ∈ t.whitelist) ∧
    ∀ q : ProcSnapshot, strLower q.name = strLower p.name → q.rss = p.rss →
      (t.handleProc (ProcEntry.ok q)).isSome =
        (t.handleProc (ProcEntry.ok p)).isSome := by
  constructor
  · constructor
    · intro hnone
      by_contra hnot
      simp only [GameModeThread.handleProc, if_neg hnot, if_pos hover] at hnone
      exact Option.noConfusion hnone
    · intro hmem
      simp only [GameModeThread.handleProc, if_pos hmem]
  · intro q hname hrss
    by_cases h1 : strLower p.name ∈ t.whitelist
    · simp [GameModeThread.handleProc, hname, hrss, h1]
    · simp [GameModeThread.handleProc, hname, hrss, h1, hover]

/-- Witness for C8: whitelist entry "note" does not protect
"Notepad.exe" (no substring match), while "NOTEPAD.EXE" and "notepad.exe"
are treated identically (case-insensitive). -/
theorem C8_matching_exact_and_case_insensitive_witness :
    (((GameModeThread.init 500 ["note"]).handleProc
        (ProcEntry.ok ⟨"Notepad.exe", 600 * 1048576⟩) = none) ↔
      strLower "Notepad.exe" ∈ ["note"]) ∧
    ∀ q : ProcSnapshot, strLower q.name = strLower "Notepad.exe" →
      q.rss = 600 * 1048576 →
      ((GameModeThread.init 500 ["note"]).handleProc (ProcEntry.ok q)).isSome =
        ((GameModeThread.init 500 ["note"]).handleProc
          (ProcEntry.ok ⟨"Notepad.exe", 600 * 1048576⟩)).isSome :=
  C8_matching_exact_and_case_insensitive (GameModeThread.init 500 ["note"])
    ⟨"Notepad.exe", 600 * 1048576⟩ (by decide)

example :
    (GameModeThread.init 500 ["note"]).handleProc
      (ProcEntry.ok ⟨"Notepad.exe", 600 * 1048576⟩) =
    some (GMAction.killed "Notepad.exe" (600 * 1048576)) := by decide

/-- C9 counterexample: the Game Mode loop has no aggressiveness setting
that could affect enforcement. `GameModeThread.__init__` assigns exactly
the fields `ram_limit_mb`, `whitelist` and `running` — no
`aggressiveness` — and a concrete two-tick run sleeps exactly 2 seconds
after each tick: the cadence is the hard-coded constant of
`self.sleep(2)`, with nothing that could shorten it or tighten the
limit. -/
theorem C9_counterexample :
    "aggressiveness" ∉ gameModeThreadFields ∧
    ((GameModeThread.init 500 (parseWhitelist "game.exe" ++ system_processes)).runLoop
        [⟨false, [ProcEntry.ok ⟨"chrome.exe", 900 * 1048576⟩]⟩, ⟨false, []⟩]).map
      TickOutput.sleepSeconds = [2, 2] := by
  decide

/-- C9 amended: Game Mode has no aggressiveness setting. Every executed
tick of every run sleeps exactly 2 seconds, every kill is decided against
exactly the configured `ram_limit_mb` (strict `>` on
`ram_limit_mb * 2^20` bytes), and no whitelisted process is ever
killed. -/
theorem C9_amended_fixed_cadence_fixed_limit
    (t : GameModeThread) (inputs : List TickInput) (o : TickOutput)
    (ho : o ∈ t.runLoop inputs) :
    o.sleepSeconds = 2 ∧
    (∀ n r, strLower n ∈ t.whitelist → GMAction.killed n r ∉ o.events) ∧
    ∀ n r, GMAction.killed n r ∈ o.events →
      (r : Int) > t.ram_limit_mb * 1048576 := by
  obtain ⟨hL, hW, hs, i, -, hev⟩ := runLoop_mem_elim t inputs o ho
  refine ⟨hs, ?_, ?_⟩
  · intro n r hn hmem
    rw [hev] at hmem
    obtain ⟨p, -, -, -, hnot, -⟩ := (killed_mem_tick_iff _ _ _ _).mp hmem
    exact hnot (by rw [hW]; exact hn)
  · intro n r hmem
    rw [hev] at hmem
    obtain ⟨p, -, -, -, -, hov⟩ := (killed_mem_tick_iff _ _ _ _).mp hmem
    rw [← hL]
    exact hov

/-- Witness for C9 amended at a concrete one-tick run. -/
theorem C9_amended_fixed_cadence_fixed_limit_witness :
    (TickOutput.mk (GameModeThread.init 500 ["game.exe"])
      ((GameModeThread.init 500 ["game.exe"]).tick
        [ProcEntry.ok ⟨"big.exe", 900 * 1048576⟩]) 2).sleepSeconds = 2 :=
  (C9_amended_fixed_cadence_fixed_limit (GameModeThread.init 500 ["game.exe"])
    [⟨false, [ProcEntry.ok ⟨"big.exe", 900 * 1048576⟩]⟩]
    (TickOutput.mk (GameModeThread.init 500 ["game.exe"])
      ((GameModeThread.init 500 ["game.exe"]).tick
        [ProcEntry.ok ⟨"big.exe", 900 * 1048576⟩]) 2)
    (by decide)).1

/-- C10: the Game Mode configuration is captured once when the mode is
enabled and is immutable while the loop runs: the thread's limit is
exactly the integer parsed from the RAM-limit field, its whitelist is
exactly the parsed whitelist plus `system_processes`, and on every
executed tick of every run the thread state still carries those same two
values (only the `running` flag ever changes, via `stop()`); later edits
to the input fields are invisible to the running loop, which reads only
the captured thread state. -/
theorem C10_config_captured_once_and_immutable
    (ramText wlText : String) (t : GameModeThread)
    (hT : toggleGameModeOn ramText wlText = some t) :
    (∀ lim, pythonInt ramText = some lim → t.ram_limit_mb = lim) ∧
    t.whitelist = parseWhitelist wlText ++ system_processes ∧
    ∀ inputs o, o ∈ t.runLoop inputs →
      o.state.ram_limit_mb = t.ram_limit_mb ∧
      o.state.whitelist = t.whitelist ∧
      ∃ i ∈ inputs, o.events = o.state.tick i.procs := by
  unfold toggleGameModeOn at hT
  cases hp : pythonInt ramText with
  | none =>
      rw [hp] at hT
      exact absurd hT (by simp)
  | some lim0 =>
      rw [hp] at hT
      injection hT with hT
      subst hT
      refine ⟨?_, rfl, ?_⟩
      · intro lim h
        exact Option.some.inj h
      · intro inputs o ho
        obtain ⟨h1, h2, -, i, hi, hev⟩ := runLoop_mem_elim _ inputs o ho
        exact ⟨h1, h2, i, hi, hev⟩

/-- Witness for C10 at the concrete enable call with limit "500" and
whitelist "game.exe". -/
theorem C10_config_captured_once_and_immutable_witness :
    (GameModeThread.init 500 (parseWhitelist "game.exe" ++ system_processes)).whitelist =
      parseWhitelist "game.exe" ++ system_processes :=
  (C10_config_captured_once_and_immutable "500" "game.exe"
    (GameModeThread.init 500 (parseWhitelist "game.exe" ++ system_processes))
    (by decide)).2.1
